import Mathlib

/-!
Verification of `library/forticare_register_units.py` (the FortiCare
registration adapter). The module builds a JSON payload from the task
parameters, performs one HTTPS POST, and normalizes the outcome into the
triple `(is_error, changed, result)` that `main` hands back to Ansible.

The embedding below translates the function `forticare_register_units`
(source lines 121-165). External collaborators are abstracted:
  * `json.loads` is modelled by the parse result already attached to the
    response (`some v` = the body parses to the JSON value `v`,
    `none` = `json.loads` raises `JSONDecodeError`);
  * the single `requests.post` call is a function from the constructed
    payload to a `TransportResult` (timeout exception, other exception
    with its diagnostic string, or a received response);
  * `requests.Response.__bool__` returns `self.ok`, which is false
    exactly for `400 <= status_code < 600` (what `raise_for_status`
    raises on); the source relies on this in lines 158-161
    (`if r and 'content' in dir(r) else None`); the `'field' in dir(r)`
    checks are always true for a `requests.Response` and are dropped.
Uncaught Python exceptions (the `try` in the source only covers the
`requests.post` call) are modelled with `Except PyError`.
-/

/-- Python/JSON values as they appear in the payload dictionaries and in
the parsed response body. -/
inductive JsonValue where
  | null
  | bool (b : Bool)
  | int (n : Int)
  | str (s : String)
  | arr (xs : List JsonValue)
  | obj (kvs : List (String × JsonValue))

/-- Python truthiness of a value (`bool(v)`): `None`, `False`, `0`, the
empty string, the empty list and the empty dict are falsy. -/
def JsonValue.truthy : JsonValue → Bool
  | .null => false
  | .bool b => b
  | .int n => n != 0
  | .str s => !s.isEmpty
  | .arr xs => !xs.isEmpty
  | .obj kvs => !kvs.isEmpty

/-- Python `v != 0` on a parsed JSON value: `0` and `False` compare equal
to `0`, every other value is `!= 0`. -/
def JsonValue.pyNeZero : JsonValue → Bool
  | .int n => n != 0
  | .bool b => b
  | _ => true

/-- Exceptions that can escape `forticare_register_units` (they are not
caught by the `try` block, which only covers `requests.post`). -/
inductive PyError where
  | jsonDecodeError
  | keyError
  | typeError
deriving DecidableEq, Repr

/-- Python subscript `v[k]` for a string key: succeeds on a dict that has
the key, raises `KeyError` on a dict without it, and raises `TypeError`
on a non-dict. -/
def JsonValue.getItem (v : JsonValue) (k : String) : Except PyError JsonValue :=
  match v with
  | .obj kvs =>
    match kvs.lookup k with
    | some x => .ok x
    | none => .error .keyError
  | _ => .error .typeError

/-- Key lookup in a parsed JSON value: `some` exactly when `v` is an
object that has the key. -/
def JsonValue.lookupKey (v : JsonValue) (k : String) : Option JsonValue :=
  match v with
  | .obj kvs => kvs.lookup k
  | _ => none

/-- One entry of the `registration_units` module parameter. Ansible
supplies every declared suboption, with `None` for options the task did
not set; `none` models both an absent key and an explicit `None`, which
the source treats identically (`'k' in unit and unit['k']`). -/
structure UnitEntry where
  serial_number : String
  contract_number : Option String := none
  description : Option String := none
  asset_group_ids : Option (List String) := none
  replaced_serial_number : Option String := none
  additional_info : Option String := none
  is_government : Option Bool := none
deriving DecidableEq, Repr

/-- The module parameters consumed by `forticare_register_units`. -/
structure RequestData where
  token : String
  version : Option String := none
  registration_units : List UnitEntry
deriving DecidableEq, Repr

/-- `if 'key' in d and d['key']:` for a string-valued option: emit the
wire entry exactly when the value is present and a non-empty string. -/
def strField (key : String) (v : Option String) : List (String × JsonValue) :=
  match v with
  | some s => if !s.isEmpty then [(key, JsonValue.str s)] else []
  | none => []

/-- Same conditional emission for a list-valued option (truthy = non-empty
list). -/
def listField (key : String) (v : Option (List String)) : List (String × JsonValue) :=
  match v with
  | some l => if !l.isEmpty then [(key, JsonValue.arr (l.map JsonValue.str))] else []
  | none => []

/-- Same conditional emission for a boolean option (truthy = `True`). -/
def boolField (key : String) (v : Option Bool) : List (String × JsonValue) :=
  match v with
  | some b => if b then [(key, JsonValue.bool b)] else []
  | none => []

/-- Source lines 128-140: the per-unit wire dictionary, in insertion
order (`Serial_Number` always first, each optional field only when
present and truthy). -/
def buildUnitData (unit : UnitEntry) : List (String × JsonValue) :=
  [("Serial_Number", JsonValue.str unit.serial_number)]
    ++ strField "Contract_Number" unit.contract_number
    ++ strField "Description" unit.description
    ++ listField "Asset_Group_IDS" unit.asset_group_ids
    ++ strField "Replaced_Serial_Number" unit.replaced_serial_number
    ++ strField "Additional_Info" unit.additional_info
    ++ boolField "Is_Government" unit.is_government

/-- Source lines 122-142: the full `body_data` payload dictionary, in
insertion order: `Token`, then `Version` when present and non-empty, then
`RegistrationUnits` built by appending one entry per unit in input
order. -/
def buildBodyData (data : RequestData) : List (String × JsonValue) :=
  [("Token", JsonValue.str data.token)]
    ++ strField "Version" data.version
    ++ [("RegistrationUnits",
          JsonValue.arr (data.registration_units.map
            fun u => JsonValue.obj (buildUnitData u)))]

/-- Outcome of the single `requests.post` call (line 147): a timeout
exception, any other exception carrying the diagnostic string that the
handler stores (`str(e.__traceback__) + str(traceback.format_exc())`), or
a received HTTP response. A received response carries its status code,
reason phrase, and the result of `json.loads` on its body (`none` when
the body is not valid JSON, in which case `json.loads` raises). -/
inductive TransportResult where
  | timeout
  | exception (diag : String)
  | response (status_code : Int) (reason : String) (parsedBody : Option JsonValue)

/-- The `result` dictionary returned alongside the error/changed flags. -/
structure Outcome where
  status_code : Option Int
  reason : Option String
  content : Option JsonValue

/-- `json.loads(r.content)` (line 158): yields the parsed value or raises
`JSONDecodeError`. -/
def loads : Option JsonValue → Except PyError (Option JsonValue)
  | some v => .ok (some v)
  | none => .error .jsonDecodeError

/-- Line 164, with Python precedence made explicit:
`success = (r.status_code != 200 or content['Status'] != 0) if content
else True`. The subscript is only evaluated when the status code is 200
(short-circuit `or`) and `content` is truthy; it can raise `KeyError` or
`TypeError`. -/
def computeSuccess (status_code : Int) (content : Option JsonValue) :
    Except PyError Bool :=
  match content with
  | some c =>
    if c.truthy then
      if status_code != 200 then .ok true
      else (c.getItem "Status").map JsonValue.pyNeZero
    else .ok true
  | none => .ok true

/-- `bool(r)` for a `requests.Response`: `Response.__bool__` returns
`self.ok`, which is false exactly when `raise_for_status` would raise,
i.e. for `400 <= status_code < 600` (client and server errors). Any
other received status code, including non-standard codes of 600 and
above, makes the response truthy. -/
def responseOk (status_code : Int) : Bool :=
  !(decide (400 ≤ status_code) && decide (status_code < 600))

/-- Source lines 121-165: build the payload, run the single POST, and
normalize the outcome to `(is_error, changed, result)`. The variable
named `success` in the source is returned in the `is_error` position;
`changed` is its negation. Lines 158-161 test `if r`, which for a
`requests.Response` is `responseOk`: on a 4xx/5xx response the body is
never parsed and `status_code`, `reason` and `content` are all reported
as `None`, while any other status (including 600 and above) parses the
body and populates the result. -/
def forticare_register_units (data : RequestData)
    (post : List (String × JsonValue) → TransportResult) :
    Except PyError (Bool × Bool × Outcome) :=
  let body_data := buildBodyData data
  match post body_data with
  | .timeout =>
    .ok (true, false,
      ⟨none, some "Timeout contacting FortiCare server", none⟩)
  | .exception diag =>
    .ok (true, false,
      ⟨none, some "General exception when running POST on FortiCare server",
        some (JsonValue.str diag)⟩)
  | .response sc rs pb =>
    let rTruthy : Bool := responseOk sc
    match (if rTruthy then loads pb else Except.ok none :
        Except PyError (Option JsonValue)) with
    | .error e => .error e
    | .ok content =>
      let result : Outcome :=
        ⟨if rTruthy then some sc else none,
         if rTruthy then some rs else none,
         content⟩
      match computeSuccess sc content with
      | .error e => .error e
      | .ok success => .ok (success, !success, result)

/-- The spec's inclusion rule for an optional string field: present under
its wire key with the original value exactly when non-empty. -/
def includedStr (v : Option String) : Option JsonValue :=
  match v with
  | some s => if s.isEmpty then none else some (JsonValue.str s)
  | none => none

/-- The spec's inclusion rule for an optional list field. -/
def includedList (v : Option (List String)) : Option JsonValue :=
  match v with
  | some l => if l.isEmpty then none else some (JsonValue.arr (l.map JsonValue.str))
  | none => none

/-- The spec's inclusion rule for an optional boolean field. -/
def includedBool (v : Option Bool) : Option JsonValue :=
  match v with
  | some b => if b then some (JsonValue.bool b) else none
  | none => none

/-- The spec's success condition for a received response: HTTP 200 and a
truthy parsed body whose `Status` field compares equal to `0`. -/
def isSuccessResponse (status_code : Int) (parsedBody : Option JsonValue) : Bool :=
  status_code == 200 &&
    match parsedBody with
    | some v =>
      v.truthy &&
        match v.lookupKey "Status" with
        | some s => !s.pyNeZero
        | none => false
    | none => false

/-- Concrete fixture: a minimal request with one unit. -/
def data0 : RequestData :=
  { token := "YOUR_TOKEN"
    registration_units := [{ serial_number := "FMG-3K3407400133" }] }

/-- C4: whenever the HTTPS POST raises a timeout, the operation returns
the outcome with a null status code, the reason string
"Timeout contacting FortiCare server", null content, is_error true and
changed false. No retry is possible: the single `post` result is
consumed exactly once, on this sole return path. -/
theorem C4_timeout_outcome (data : RequestData)
    (post : List (String × JsonValue) → TransportResult)
    (h : post (buildBodyData data) = TransportResult.timeout) :
    forticare_register_units data post =
      .ok (true, false,
        ⟨none, some "Timeout contacting FortiCare server", none⟩) := by
  simp [forticare_register_units, h]

/-- C4 witness: concrete evaluation at a transport that times out. -/
theorem C4_timeout_outcome_witness :
    (fun _ => TransportResult.timeout) (buildBodyData data0) =
        TransportResult.timeout ∧
    forticare_register_units data0 (fun _ => TransportResult.timeout) =
      .ok (true, false,
        ⟨none, some "Timeout contacting FortiCare server", none⟩) :=
  ⟨rfl, C4_timeout_outcome data0 (fun _ => TransportResult.timeout) rfl⟩

/-- C6: whenever the HTTPS POST raises any non-timeout exception, the
operation returns the outcome with a null status code, the reason string
"General exception when running POST on FortiCare server", the
exception's diagnostic string as content, is_error true and changed
false. -/
theorem C6_general_exception_outcome (data : RequestData)
    (post : List (String × JsonValue) → TransportResult) (diag : String)
    (h : post (buildBodyData data) = TransportResult.exception diag) :
    forticare_register_units data post =
      .ok (true, false,
        ⟨none, some "General exception when running POST on FortiCare server",
          some (JsonValue.str diag)⟩) := by
  simp [forticare_register_units, h]

/-- C6 witness: concrete evaluation at a transport that raises a
connection error. -/
theorem C6_general_exception_outcome_witness :
    (fun _ => TransportResult.exception "ConnectionError") (buildBodyData data0) =
        TransportResult.exception "ConnectionError" ∧
    forticare_register_units data0
        (fun _ => TransportResult.exception "ConnectionError") =
      .ok (true, false,
        ⟨none, some "General exception when running POST on FortiCare server",
          some (JsonValue.str "ConnectionError")⟩) :=
  ⟨rfl, C6_general_exception_outcome data0
    (fun _ => TransportResult.exception "ConnectionError") "ConnectionError" rfl⟩

/-- C5: on every return path of the operation (timeout, general
exception, and every received response that returns), the returned
booleans satisfy changed = not is_error. -/
theorem C5_changed_complements_is_error (data : RequestData)
    (post : List (String × JsonValue) → TransportResult)
    (ie ch : Bool) (out : Outcome)
    (h : forticare_register_units data post = .ok (ie, ch, out)) :
    ch = !ie := by
  simp only [forticare_register_units] at h
  split at h
  · cases h; rfl
  · cases h; rfl
  · split at h
    · cases h
    · split at h
      · cases h
      · cases h; rfl

/-- C5 witness: concrete evaluation at a timeout. -/
theorem C5_changed_complements_is_error_witness :
    forticare_register_units data0 (fun _ => TransportResult.timeout) =
      .ok (true, false,
        ⟨none, some "Timeout contacting FortiCare server", none⟩) ∧
    false = !true :=
  ⟨rfl, C5_changed_complements_is_error data0 (fun _ => TransportResult.timeout)
    true false ⟨none, some "Timeout contacting FortiCare server", none⟩ rfl⟩

/-- C8: every received response with status code 500 yields is_error
true (and changed false), regardless of the body: a 500 response is
falsy for `requests.Response`, so the body is never parsed and `content`
stays `None`, which line 164 maps to `success = True`. -/
theorem C8_http500_is_error (data : RequestData)
    (post : List (String × JsonValue) → TransportResult)
    (rs : String) (pb : Option JsonValue)
    (h : post (buildBodyData data) = TransportResult.response 500 rs pb) :
    ∃ out, forticare_register_units data post = .ok (true, false, out) := by
  refine ⟨⟨none, none, none⟩, ?_⟩
  simp [forticare_register_units, h, responseOk, computeSuccess]

/-- C8 witness: concrete evaluation at a 500 response whose body is not
even valid JSON. -/
theorem C8_http500_is_error_witness :
    (fun _ => TransportResult.response 500 "Internal Server Error" none)
        (buildBodyData data0) =
      TransportResult.response 500 "Internal Server Error" none ∧
    ∃ out, forticare_register_units data0
        (fun _ => TransportResult.response 500 "Internal Server Error" none) =
      .ok (true, false, out) :=
  ⟨rfl, C8_http500_is_error data0
    (fun _ => TransportResult.response 500 "Internal Server Error" none)
    "Internal Server Error" none rfl⟩

/-- C10: every received response whose body parses to a falsy JSON value
(empty object, null, 0, empty string, ...) yields is_error true and
changed false, even when the status code is 200: line 164 takes the
`else True` branch whenever `content` is falsy. -/
theorem C10_falsy_body_is_error (data : RequestData)
    (post : List (String × JsonValue) → TransportResult)
    (sc : Int) (rs : String) (v : JsonValue)
    (h : post (buildBodyData data) = TransportResult.response sc rs (some v))
    (hv : v.truthy = false) :
    ∃ out, forticare_register_units data post = .ok (true, false, out) := by
  cases hok : responseOk sc with
  | true => exact ⟨⟨some sc, some rs, some v⟩,
      by simp [forticare_register_units, h, hok, loads, computeSuccess, hv]⟩
  | false => exact ⟨⟨none, none, none⟩,
      by simp [forticare_register_units, h, hok, computeSuccess]⟩

/-- C10 witness: concrete evaluation at a 200 response whose body is the
empty JSON object. -/
theorem C10_falsy_body_is_error_witness :
    (fun _ => TransportResult.response 200 "OK" (some (JsonValue.obj [])))
        (buildBodyData data0) =
      TransportResult.response 200 "OK" (some (JsonValue.obj [])) ∧
    JsonValue.truthy (JsonValue.obj []) = false ∧
    ∃ out, forticare_register_units data0
        (fun _ => TransportResult.response 200 "OK" (some (JsonValue.obj []))) =
      .ok (true, false, out) :=
  ⟨rfl, rfl, C10_falsy_body_is_error data0
    (fun _ => TransportResult.response 200 "OK" (some (JsonValue.obj [])))
    200 "OK" (JsonValue.obj []) rfl rfl⟩

/-- Association lookup distributes over append: the first binding wins,
matching Python dict insertion semantics for disjoint key blocks. -/
theorem lookup_append (k : String) (l1 l2 : List (String × JsonValue)) :
    List.lookup k (l1 ++ l2) = (List.lookup k l1).or (List.lookup k l2) := by
  induction l1 with
  | nil => simp [List.lookup]
  | cons hd tl ih =>
    cases hd with
    | mk k2 v2 => cases hk : (k == k2) <;> simp [List.lookup, hk, ih]

/-- Looking up the emitted string field under its own key recovers the
spec's inclusion rule. -/
theorem strField_lookup_self (k : String) (v : Option String) :
    List.lookup k (strField k v) = includedStr v := by
  cases v with
  | none => rfl
  | some s =>
    by_cases hs : s.isEmpty <;> simp [strField, includedStr, hs, List.lookup]

/-- A string field block never binds a different key. -/
theorem strField_lookup_ne (k q : String) (v : Option String)
    (h : (q == k) = false) : List.lookup q (strField k v) = none := by
  cases v with
  | none => rfl
  | some s =>
    by_cases hs : s.isEmpty <;> simp [strField, hs, List.lookup, h]

/-- Looking up the emitted list field under its own key recovers the
spec's inclusion rule. -/
theorem listField_lookup_self (k : String) (v : Option (List String)) :
    List.lookup k (listField k v) = includedList v := by
  cases v with
  | none => rfl
  | some l =>
    by_cases hl : l.isEmpty <;> simp [listField, includedList, hl, List.lookup]

/-- A list field block never binds a different key. -/
theorem listField_lookup_ne (k q : String) (v : Option (List String))
    (h : (q == k) = false) : List.lookup q (listField k v) = none := by
  cases v with
  | none => rfl
  | some l =>
    by_cases hl : l.isEmpty <;> simp [listField, hl, List.lookup, h]

/-- Looking up the emitted boolean field under its own key recovers the
spec's inclusion rule. -/
theorem boolField_lookup_self (k : String) (v : Option Bool) :
    List.lookup k (boolField k v) = includedBool v := by
  cases v with
  | none => rfl
  | some b => cases b <;> simp [boolField, includedBool, List.lookup]

/-- A boolean field block never binds a different key. -/
theorem boolField_lookup_ne (k q : String) (v : Option Bool)
    (h : (q == k) = false) : List.lookup q (boolField k v) = none := by
  cases v with
  | none => rfl
  | some b => cases b <;> simp [boolField, List.lookup, h]

/-- C9: the payload always binds `Token` to the input token, and binds
`Version` to the input version exactly when it is present and
non-empty. -/
theorem C9_token_and_version (data : RequestData) :
    List.lookup "Token" (buildBodyData data) = some (JsonValue.str data.token) ∧
    List.lookup "Version" (buildBodyData data) = includedStr data.version := by
  constructor
  · simp [buildBodyData, List.lookup]
  · simp [buildBodyData, List.lookup, lookup_append, strField_lookup_self]

/-- C7: the payload's `RegistrationUnits` value is exactly the list of
per-unit dictionaries, one per input unit and in input order, and every
per-unit dictionary binds `Serial_Number` to that unit's serial
number. -/
theorem C7_units_in_order (data : RequestData) :
    List.lookup "RegistrationUnits" (buildBodyData data) =
      some (JsonValue.arr (data.registration_units.map
        fun u => JsonValue.obj (buildUnitData u))) ∧
    ∀ u ∈ data.registration_units,
      List.lookup "Serial_Number" (buildUnitData u) =
        some (JsonValue.str u.serial_number) := by
  constructor
  · simp [buildBodyData, List.lookup, lookup_append, strField_lookup_ne]
  · intro u _
    simp [buildUnitData, List.lookup]

/-- C7 witness: concrete evaluation at the one-unit fixture. -/
theorem C7_units_in_order_witness :
    ({ serial_number := "FMG-3K3407400133" } : UnitEntry) ∈
        data0.registration_units ∧
    List.lookup "Serial_Number"
        (buildUnitData { serial_number := "FMG-3K3407400133" }) =
      some (JsonValue.str "FMG-3K3407400133") :=
  ⟨by simp [data0], (C7_units_in_order data0).2
    { serial_number := "FMG-3K3407400133" } (by simp [data0])⟩

/-- C3: in every per-unit dictionary each optional field is bound under
its exact capitalized wire key to the original value exactly when the
input value is present and truthy, and is absent otherwise. -/
theorem C3_optional_unit_fields (u : UnitEntry) :
    List.lookup "Contract_Number" (buildUnitData u) =
        includedStr u.contract_number ∧
    List.lookup "Description" (buildUnitData u) =
        includedStr u.description ∧
    List.lookup "Asset_Group_IDS" (buildUnitData u) =
        includedList u.asset_group_ids ∧
    List.lookup "Replaced_Serial_Number" (buildUnitData u) =
        includedStr u.replaced_serial_number ∧
    List.lookup "Additional_Info" (buildUnitData u) =
        includedStr u.additional_info ∧
    List.lookup "Is_Government" (buildUnitData u) =
        includedBool u.is_government := by
  refine ⟨?_, ?_, ?_, ?_, ?_, ?_⟩ <;>
    simp [buildUnitData, List.lookup, lookup_append,
      strField_lookup_self, strField_lookup_ne,
      listField_lookup_self, listField_lookup_ne,
      boolField_lookup_self, boolField_lookup_ne]

/-- A successful key lookup determines the Python subscript result. -/
theorem getItem_eq_of_lookupKey (v : JsonValue) (k : String) (s : JsonValue)
    (h : v.lookupKey k = some s) : v.getItem k = .ok s := by
  cases v <;> simp_all [JsonValue.lookupKey, JsonValue.getItem]

/-- Shared case analysis of the response path: when the body parses
whenever the response is truthy for requests (status outside 400-599),
and a truthy 200-body has a `Status` key, the operation returns a
triple whose error flag is the negation of the spec's success
condition. -/
theorem register_response_eq (data : RequestData)
    (post : List (String × JsonValue) → TransportResult)
    (sc : Int) (rs : String) (pb : Option JsonValue)
    (h : post (buildBodyData data) = TransportResult.response sc rs pb)
    (hparse : responseOk sc = true → pb.isSome = true)
    (hstatus : ∀ v, pb = some v → v.truthy = true → sc = 200 →
      (v.lookupKey "Status").isSome = true) :
    ∃ out, forticare_register_units data post =
      .ok (!(isSuccessResponse sc pb), isSuccessResponse sc pb, out) := by
  cases hok : responseOk sc with
  | false =>
    have h200 : ¬ sc = 200 := by
      intro e
      rw [e] at hok
      simp [responseOk] at hok
    refine ⟨⟨none, none, none⟩, ?_⟩
    simp [forticare_register_units, h, hok, computeSuccess, isSuccessResponse, h200]
  | true =>
    cases pb with
    | none => exact absurd (hparse hok) (by simp)
    | some v =>
      cases htru : v.truthy with
      | false =>
        refine ⟨⟨some sc, some rs, some v⟩, ?_⟩
        simp [forticare_register_units, h, hok, loads, computeSuccess, htru,
          isSuccessResponse]
      | true =>
        by_cases h200 : sc = 200
        · subst h200
          obtain ⟨s, hs⟩ := Option.isSome_iff_exists.mp (hstatus v rfl htru rfl)
          refine ⟨⟨some 200, some rs, some v⟩, ?_⟩
          have hg : v.getItem "Status" = .ok s := getItem_eq_of_lookupKey v "Status" s hs
          simp [forticare_register_units, h, hok, loads, computeSuccess, htru, hg, hs,
            isSuccessResponse, Except.map]
        · refine ⟨⟨some sc, some rs, some v⟩, ?_⟩
          simp [forticare_register_units, h, hok, loads, computeSuccess, htru, h200,
            isSuccessResponse]

/-- Fixture: a successful registration response body. -/
def body0 : JsonValue :=
  JsonValue.obj [("Status", JsonValue.int 0), ("Message", JsonValue.str "Success")]

/-- C1 (amended): for every received response whose body parses as JSON
whenever the response is truthy for requests (status code outside
400-599), and whose truthy body under a 200 status is an object with a
`Status` key, the returned triple has is_error false and changed true
exactly when the status code is 200 and the parsed body is truthy with
`Status` comparing equal to 0; every other such combination yields
is_error true and changed false. The original claim fails for bodies
excluded by these two guards: there the operation raises instead of
returning (see the counterexample). -/
theorem C1_success_iff (data : RequestData)
    (post : List (String × JsonValue) → TransportResult)
    (sc : Int) (rs : String) (pb : Option JsonValue)
    (h : post (buildBodyData data) = TransportResult.response sc rs pb)
    (hparse : responseOk sc = true → pb.isSome = true)
    (hstatus : ∀ v, pb = some v → v.truthy = true → sc = 200 →
      (v.lookupKey "Status").isSome = true) :
    ∃ out, forticare_register_units data post =
      .ok (!(isSuccessResponse sc pb), isSuccessResponse sc pb, out) :=
  register_response_eq data post sc rs pb h hparse hstatus

/-- C1 witness: concrete evaluation at a 200 response carrying
Status 0, which yields is_error false and changed true. -/
theorem C1_success_iff_witness :
    isSuccessResponse 200 (some body0) = true ∧
    ∃ out, forticare_register_units data0
        (fun _ => TransportResult.response 200 "OK" (some body0)) =
      .ok (false, true, out) :=
  ⟨rfl, C1_success_iff data0
    (fun _ => TransportResult.response 200 "OK" (some body0))
    200 "OK" (some body0) rfl (fun _ => rfl)
    (fun v hv _ _ => by cases hv; rfl)⟩

/-- C1 counterexample: a received 200 response whose body is not valid
JSON does not yield any outcome at all, let alone one with is_error true
and changed false: the uncaught `JSONDecodeError` escapes the
operation. -/
theorem C1_counterexample :
    forticare_register_units data0
        (fun _ => TransportResult.response 200 "OK" none) =
      Except.error PyError.jsonDecodeError ∧
    ∀ ie ch out, forticare_register_units data0
        (fun _ => TransportResult.response 200 "OK" none) ≠
      Except.ok (ie, ch, out) := by
  refine ⟨rfl, ?_⟩
  intro ie ch out hcontra
  have himp : (Except.error PyError.jsonDecodeError :
      Except PyError (Bool × Bool × Outcome)) = Except.ok (ie, ch, out) := by
    calc (Except.error PyError.jsonDecodeError :
        Except PyError (Bool × Bool × Outcome))
        = forticare_register_units data0
            (fun _ => TransportResult.response 200 "OK" none) := rfl
      _ = Except.ok (ie, ch, out) := hcontra
  cases himp

/-- C2 (amended): the operation never raises on a timeout or a general
transport exception, and returns a structured triple for every received
response whose body parses as JSON whenever the response is truthy for
requests (status code outside 400-599) and whose truthy body under a
200 status is an object with a `Status` key. Outside these guards the
operation raises: the `try` block in the source only covers the POST
itself (see the counterexample). -/
theorem C2_total_on_guarded_inputs (data : RequestData)
    (post : List (String × JsonValue) → TransportResult)
    (hparse : ∀ sc rs pb, post (buildBodyData data) =
        TransportResult.response sc rs pb → responseOk sc = true →
        pb.isSome = true)
    (hstatus : ∀ sc rs v, post (buildBodyData data) =
        TransportResult.response sc rs (some v) → v.truthy = true →
        sc = 200 → (v.lookupKey "Status").isSome = true) :
    ∃ ret, forticare_register_units data post = .ok ret := by
  cases htr : post (buildBodyData data) with
  | timeout =>
    refine ⟨(true, false,
      ⟨none, some "Timeout contacting FortiCare server", none⟩), ?_⟩
    simp [forticare_register_units, htr]
  | exception diag =>
    refine ⟨(true, false,
      ⟨none, some "General exception when running POST on FortiCare server",
        some (JsonValue.str diag)⟩), ?_⟩
    simp [forticare_register_units, htr]
  | response sc rs pb =>
    obtain ⟨out, heq⟩ := register_response_eq data post sc rs pb htr
      (hparse sc rs pb htr)
      (fun v hv => hstatus sc rs v (hv ▸ htr))
    exact ⟨_, heq⟩

/-- C2 witness: concrete evaluation at a transport that times out. -/
theorem C2_total_on_guarded_inputs_witness :
    ∃ ret, forticare_register_units data0 (fun _ => TransportResult.timeout) =
      .ok ret :=
  C2_total_on_guarded_inputs data0 (fun _ => TransportResult.timeout)
    (fun _ _ _ hcontra => nomatch hcontra)
    (fun _ _ _ hcontra => nomatch hcontra)

/-- C2 counterexample: a received 200 response whose parsed body is a
truthy object without a `Status` key makes the operation raise an
uncaught `KeyError` instead of returning a structured triple. -/
theorem C2_counterexample :
    forticare_register_units data0
        (fun _ => TransportResult.response 200 "OK"
          (some (JsonValue.obj [("Message", JsonValue.str "hi")]))) =
      Except.error PyError.keyError ∧
    ∀ ret, forticare_register_units data0
        (fun _ => TransportResult.response 200 "OK"
          (some (JsonValue.obj [("Message", JsonValue.str "hi")]))) ≠
      Except.ok ret := by
  refine ⟨rfl, ?_⟩
  intro ret hcontra
  have himp : (Except.error PyError.keyError :
      Except PyError (Bool × Bool × Outcome)) = Except.ok ret := by
    calc (Except.error PyError.keyError :
        Except PyError (Bool × Bool × Outcome))
        = forticare_register_units data0
            (fun _ => TransportResult.response 200 "OK"
              (some (JsonValue.obj [("Message", JsonValue.str "hi")]))) := rfl
      _ = Except.ok ret := hcontra
  cases himp
